import Mathlib

/-!
Verification of the lifestack gateway's aggregation-and-caching core.

The JavaScript source is embedded shallowly: pure computations become Lean
functions, stateful handlers become functions from an explicit pre-state
(plus the outcomes of awaited upstream calls) to a result record carrying
the HTTP response data and the post-state.  Timestamps are modelled as
natural numbers of milliseconds (`Date.now()`) or integers of seconds
(Strava's epoch arithmetic), matching the units each source file uses.
-/

namespace Lifestack

/-- A JavaScript value, as far as the embedded handlers inspect one:
`undefined`, `null`, booleans, integral numbers and strings.  (The
handlers under study only ever branch on these shapes.) -/
inductive JsVal where
  | undef
  | null
  | bool (b : Bool)
  | num (n : Int)
  | str (s : String)
  deriving DecidableEq

/-- JavaScript truthiness for the values of `JsVal`:
`undefined`, `null`, `false`, `0` and `""` are falsy. -/
def truthy : JsVal → Bool
  | .undef => false
  | .null => false
  | .bool b => b
  | .num n => n != 0
  | .str s => s != ""

/-! ## Pavlok controller: rate limiter (`src/unnamed/part_006`) -/

/-- Constant `RATE_LIMIT_MS` from the Pavlok controller: 5 seconds in milliseconds. -/
def RATE_LIMIT_MS : Nat := 5000

/-- Result shape of `checkRateLimit`: `{ allowed, timeRemaining? }`. -/
structure RateLimitCheck where
  allowed : Bool
  timeRemaining : Option Nat
  deriving DecidableEq

/-- Function `checkRateLimit(type)` from the Pavlok controller, with the mutable
`lastActionTime[type]` and `Date.now()` passed explicitly (milliseconds).
`Math.ceil(x / 1000)` on a natural number of milliseconds is
`(x + 999) / 1000` in natural division. -/
def checkRateLimit (lastActionTime now : Nat) : RateLimitCheck :=
  let timeSinceLastAction := now - lastActionTime
  if timeSinceLastAction < RATE_LIMIT_MS then
    { allowed := false
      timeRemaining := some ((RATE_LIMIT_MS - timeSinceLastAction + 999) / 1000) }
  else
    { allowed := true, timeRemaining := none }

/-- Function `updateRateLimit(type)`: sets `lastActionTime[type] = Date.now()`.
The returned value is the new `lastActionTime[type]`. -/
def updateRateLimit (now : Nat) : Nat := now

/-! ## Pavlok client validation (`validateIntensity`) -/

/-- Result shape of `validateIntensity`: `{ valid, error? }`. -/
structure IntensityValidation where
  valid : Bool
  error : Option String
  deriving DecidableEq

/-- Function `validateIntensity(intensity)` from the Pavlok client: rejects
`undefined`/`null`, rejects non-integers, then requires `1 ≤ n ≤ 4`.
Integral JavaScript numbers are `JsVal.num`; every other shape fails the
`Number.isInteger` test. -/
def validateIntensity (intensity : JsVal) : IntensityValidation :=
  match intensity with
  | .undef => { valid := false, error := some "Intensity is required" }
  | .null => { valid := false, error := some "Intensity is required" }
  | .num n =>
      if n < 1 ∨ 4 < n then
        { valid := false, error := some "Intensity must be between 1 and 4" }
      else
        { valid := true, error := none }
  | _ => { valid := false, error := some "Intensity must be an integer" }

/-! ## Pavlok controller: stimulus handlers -/

/-- The record handed to `logStimulus` (a `PavlokStimulus` document). -/
structure StimulusRecord where
  type : String
  intensity : JsVal
  reason : JsVal
  success : Bool
  error : Option String
  deriving DecidableEq

/-- Function `logStimulus`: attempts `stimulus.save()`; a persistence failure is
caught inside and `null` is returned, so the caller's control flow never
depends on it.  `saveOk` is the outcome of the awaited database write. -/
def logStimulus (entry : StimulusRecord) (saveOk : Bool) : Option StimulusRecord :=
  if saveOk then some entry else none

/-- An error thrown by the upstream Pavlok client, as `handleError`
inspects it: a message and an optional HTTP status. -/
structure UpstreamError where
  message : String
  status : Option Nat
  deriving DecidableEq

/-- Everything observable about one run of a stimulus handler:
the HTTP status and `success` flag of the response, whether the upstream
device call was issued, the `lastActionTime` entry for the action class
after the run, the record submitted to `logStimulus` (if any), and what
`logStimulus` returned. -/
structure TriggerOutcome where
  status : Nat
  success : Bool
  upstreamCalled : Bool
  lastAction : Nat
  logAttempt : Option StimulusRecord
  dbRecord : Option StimulusRecord
  deriving DecidableEq

/-- Handler `triggerShock(req, res)`.  Inputs: the pre-call `lastActionTime.shock`,
the `Date.now()` read inside `checkRateLimit`, the `Date.now()` read inside
`updateRateLimit`, the request-body fields, the outcome of the awaited
`pavlokClient.shock(intensity)` call, and the outcome of the history write.
The confirmation gate `confirm !== true` runs first, then intensity
validation, then the rate limiter, then the upstream call; `updateRateLimit`
runs only after a successful upstream call, and the catch block logs the
failure without touching the rate limiter. -/
def triggerShock (lastShock tCheck tTrigger : Nat) (intensity confirm reason : JsVal)
    (shockResult : Except UpstreamError Unit) (saveOk : Bool) : TriggerOutcome :=
  if confirm ≠ JsVal.bool true then
    { status := 400, success := false, upstreamCalled := false, lastAction := lastShock
      logAttempt := none, dbRecord := none }
  else if (validateIntensity intensity).valid = false then
    { status := 400, success := false, upstreamCalled := false, lastAction := lastShock
      logAttempt := none, dbRecord := none }
  else if (checkRateLimit lastShock tCheck).allowed = false then
    { status := 429, success := false, upstreamCalled := false, lastAction := lastShock
      logAttempt := none, dbRecord := none }
  else
    match shockResult with
    | .ok _ =>
        let entry : StimulusRecord :=
          { type := "shock", intensity := intensity, reason := reason
            success := true, error := none }
        { status := 200, success := true, upstreamCalled := true
          lastAction := updateRateLimit tTrigger
          logAttempt := some entry, dbRecord := logStimulus entry saveOk }
    | .error e =>
        let entry : StimulusRecord :=
          { type := "shock", intensity := intensity, reason := reason
            success := false, error := some e.message }
        { status := e.status.getD 500, success := false, upstreamCalled := true
          lastAction := lastShock
          logAttempt := some entry, dbRecord := logStimulus entry saveOk }

/-- Handler `triggerBeep(req, res)`: identical control flow minus the confirmation
gate, logging with type `"beep"`. -/
def triggerBeep (lastBeep tCheck tTrigger : Nat) (intensity reason : JsVal)
    (beepResult : Except UpstreamError Unit) (saveOk : Bool) : TriggerOutcome :=
  if (validateIntensity intensity).valid = false then
    { status := 400, success := false, upstreamCalled := false, lastAction := lastBeep
      logAttempt := none, dbRecord := none }
  else if (checkRateLimit lastBeep tCheck).allowed = false then
    { status := 429, success := false, upstreamCalled := false, lastAction := lastBeep
      logAttempt := none, dbRecord := none }
  else
    match beepResult with
    | .ok _ =>
        let entry : StimulusRecord :=
          { type := "beep", intensity := intensity, reason := reason
            success := true, error := none }
        { status := 200, success := true, upstreamCalled := true
          lastAction := updateRateLimit tTrigger
          logAttempt := some entry, dbRecord := logStimulus entry saveOk }
    | .error e =>
        let entry : StimulusRecord :=
          { type := "beep", intensity := intensity, reason := reason
            success := false, error := some e.message }
        { status := e.status.getD 500, success := false, upstreamCalled := true
          lastAction := lastBeep
          logAttempt := some entry, dbRecord := logStimulus entry saveOk }

/-- Handler `triggerVibration(req, res)`: identical control flow to `triggerBeep`,
logging with type `"vibrate"`. -/
def triggerVibration (lastVib tCheck tTrigger : Nat) (intensity reason : JsVal)
    (vibResult : Except UpstreamError Unit) (saveOk : Bool) : TriggerOutcome :=
  if (validateIntensity intensity).valid = false then
    { status := 400, success := false, upstreamCalled := false, lastAction := lastVib
      logAttempt := none, dbRecord := none }
  else if (checkRateLimit lastVib tCheck).allowed = false then
    { status := 429, success := false, upstreamCalled := false, lastAction := lastVib
      logAttempt := none, dbRecord := none }
  else
    match vibResult with
    | .ok _ =>
        let entry : StimulusRecord :=
          { type := "vibrate", intensity := intensity, reason := reason
            success := true, error := none }
        { status := 200, success := true, upstreamCalled := true
          lastAction := updateRateLimit tTrigger
          logAttempt := some entry, dbRecord := logStimulus entry saveOk }
    | .error e =>
        let entry : StimulusRecord :=
          { type := "vibrate", intensity := intensity, reason := reason
            success := false, error := some e.message }
        { status := e.status.getD 500, success := false, upstreamCalled := true
          lastAction := lastVib
          logAttempt := some entry, dbRecord := logStimulus entry saveOk }

/-! ## Strava OAuth client (`src/unnamed/part_007`) -/

/-- Constant `TOKEN_REFRESH_BUFFER` from the Strava client: refresh if the token
expires in less than 5 minutes (seconds). -/
def TOKEN_REFRESH_BUFFER : Int := 300

/-- The token file contents / the client's instance fields
(`access_token`, `refresh_token`, `expires_at` in epoch seconds). -/
structure TokenRecord where
  access_token : String
  refresh_token : String
  expires_at : Int
  deriving DecidableEq

/-- Everything observable about one run of `_ensureValidToken` /
`_refreshToken`: the value produced for the caller (the error is the
message of the thrown `Error`), the client's token fields afterwards,
what `saveTokens` persisted (if called), and the refresh tokens sent to
the upstream token endpoint, in order. -/
structure RefreshOutcome where
  result : Except String TokenRecord
  state : TokenRecord
  persisted : Option TokenRecord
  sent : List String

/-- Method `_refreshToken()`: posts the stored refresh token to the token
endpoint; on success persists and installs the returned record; on
failure throws a re-authorization error, leaving the stored record
untouched and issuing no further upstream call.  `upstream` maps the
refresh token sent to the endpoint's response. -/
def refreshTokenStep (st : TokenRecord)
    (upstream : String → Except String TokenRecord) : RefreshOutcome :=
  match upstream st.refresh_token with
  | .ok tokenData =>
      { result := .ok tokenData, state := tokenData
        persisted := some tokenData, sent := [st.refresh_token] }
  | .error _ =>
      { result := .error "Token refresh failed. You may need to re-authorize: node services/strava/oauth-setup.js"
        state := st, persisted := none, sent := [st.refresh_token] }

/-- Method `_ensureValidToken()`: skips under a manual token; otherwise refreshes
exactly when `expiresAt - now < TOKEN_REFRESH_BUFFER`, else returns with
no I/O and the stored record unchanged. -/
def ensureValidToken (manualToken : Bool) (st : TokenRecord) (now : Int)
    (upstream : String → Except String TokenRecord) : RefreshOutcome :=
  if manualToken then
    { result := .ok st, state := st, persisted := none, sent := [] }
  else
    let timeUntilExpiry := st.expires_at - now
    if timeUntilExpiry < TOKEN_REFRESH_BUFFER then
      refreshTokenStep st upstream
    else
      { result := .ok st, state := st, persisted := none, sent := [] }

/-! ## Interleaved concurrent calls to `_ensureValidToken`

`_ensureValidToken` runs synchronously from the expiry check through
`_refreshToken`'s `axios.post(...)` call; the event loop can then run
another caller before the response arrives.  The machine below captures
exactly those suspension points: `issue i` runs caller `i`'s synchronous
prefix (expiry check, and, when stale, dispatch of the refresh request
carrying the instance's current refresh token); `complete i` delivers the
upstream response for caller `i`'s in-flight request and runs the
synchronous continuation (token installation, or the thrown refresh
error).  The provider rotates its refresh token on every successful
refresh and rejects a refresh carrying a rotated (stale) token. -/

/-- The position of one concurrent caller of `_ensureValidToken`. -/
inductive CallerState where
  | ready
  | inflight (sentRefreshToken : String)
  | gotToken (accessToken : String)
  | failed
  deriving DecidableEq

/-- Shared state: the client instance's token fields, the provider's
currently-valid refresh token, a rotation counter naming fresh tokens,
and the per-caller positions. -/
structure RefreshWorld where
  client : TokenRecord
  providerRefresh : String
  rotation : Nat
  callers : List CallerState
  deriving DecidableEq

/-- A scheduling event: run caller `i` up to its next suspension point. -/
inductive RefreshEvent where
  | issue (i : Nat)
  | complete (i : Nat)
  deriving DecidableEq

/-- One scheduling step at clock `now` (epoch seconds). -/
def refreshStep (now : Int) (w : RefreshWorld) (e : RefreshEvent) : RefreshWorld :=
  match e with
  | .issue i =>
      match w.callers.get? i with
      | some .ready =>
          if w.client.expires_at - now < TOKEN_REFRESH_BUFFER then
            { w with callers := w.callers.set i (.inflight w.client.refresh_token) }
          else
            { w with callers := w.callers.set i (.gotToken w.client.access_token) }
      | _ => w
  | .complete i =>
      match w.callers.get? i with
      | some (.inflight sent) =>
          if sent = w.providerRefresh then
            let n := w.rotation + 1
            let fresh : TokenRecord :=
              { access_token := "access" ++ toString n
                refresh_token := "refresh" ++ toString n
                expires_at := now + 21600 }
            { client := fresh, providerRefresh := fresh.refresh_token, rotation := n
              callers := w.callers.set i (.gotToken fresh.access_token) }
          else
            { w with callers := w.callers.set i .failed }
      | _ => w

/-- Run a schedule of events. -/
def refreshRun (now : Int) (w : RefreshWorld) (es : List RefreshEvent) : RefreshWorld :=
  es.foldl (refreshStep now) w

/-- Number of upstream refresh requests currently in flight. -/
def inflightCount (w : RefreshWorld) : Nat :=
  (w.callers.filter fun c => match c with | .inflight _ => true | _ => false).length

/-- Is some in-flight refresh request carrying a refresh token the
provider has already rotated away from? -/
def hasStaleInflight (w : RefreshWorld) : Bool :=
  w.callers.any fun c =>
    match c with
    | .inflight sent => sent != w.providerRefresh
    | _ => false

/-- Initial world for two concurrent callers: token expiring in 100
seconds (inside the 300-second buffer), provider and client agree on
`"refresh0"`. -/
def staleWorld2 : RefreshWorld :=
  { client := { access_token := "access0", refresh_token := "refresh0", expires_at := 100 }
    providerRefresh := "refresh0", rotation := 0
    callers := [.ready, .ready] }

/-! ## Shared TTL cache (`src/unnamed/part_002`) and Strava controller -/

/-- Modelled from the spec: the `node-cache` instance behind the shared
cache middleware is third-party code absent from the repository; the spec
fixes its read contract — `set(key, value, ttl)` stores the value with
expiry `now + ttl`, and `get` never returns a value once
`now >= expiresAt`, with expired entries purged lazily or by sweep.  The
store is an association list of `(key, value, expiresAt)`. -/
abbrev TTLCache (α : Type) : Type := List (String × α × Nat)

/-- Modelled from the spec: `cache.del(key)` — removes every entry for
the key. -/
def cacheDel {α : Type} : TTLCache α → String → TTLCache α
  | [], _ => []
  | (k', v, expiresAt) :: rest, key =>
      if k' = key then cacheDel rest key
      else (k', v, expiresAt) :: cacheDel rest key

/-- Modelled from the spec: `cache.set(key, value, ttl)` — replaces any
entry for `key` with one expiring at `now + ttl`. -/
def cacheSet {α : Type} (c : TTLCache α) (key : String) (v : α) (ttl now : Nat) :
    TTLCache α :=
  (key, v, now + ttl) :: cacheDel c key

/-- Modelled from the spec: `cache.get(key)` — returns the stored value
exactly when an entry for the key exists and `now < expiresAt`. -/
def cacheGet {α : Type} : TTLCache α → String → Nat → Option α
  | [], _, _ => none
  | (k', v, expiresAt) :: rest, key, now =>
      if k' = key then (if now < expiresAt then some v else none)
      else cacheGet rest key now

/-- Result shape of `getCachedOrFetch`, extended with the cache after the
call and whether `fetchFn` was invoked. -/
structure CachedFetchOutcome where
  data : JsVal
  fromCache : Bool
  cacheAfter : TTLCache JsVal
  fetchCalled : Bool

/-- Function `getCachedOrFetch(cacheKey, duration, fetchFn)` from the Strava
controller: reads the cache, treats any truthy value as a hit
(`if (cached)`), and otherwise awaits `fetchFn` (its value passed here as
`fetched`) and caches the result under the same key and duration. -/
def getCachedOrFetch (c : TTLCache JsVal) (cacheKey : String) (duration : Nat)
    (fetched : JsVal) (now : Nat) : CachedFetchOutcome :=
  match cacheGet c cacheKey now with
  | some cached =>
      if truthy cached then
        { data := cached, fromCache := true, cacheAfter := c, fetchCalled := false }
      else
        { data := fetched, fromCache := false
          cacheAfter := cacheSet c cacheKey fetched duration now, fetchCalled := true }
  | none =>
      { data := fetched, fromCache := false
        cacheAfter := cacheSet c cacheKey fetched duration now, fetchCalled := true }

/-! ## Calendar service: write handlers and cache invalidation
(`src/services/calendar/routes.js`, `src/services/calendar/cache.js`) -/

/-- Constants `CACHE_PREFIX` and `getCacheKey(dateKey)` from the calendar cache. -/
def calendarCacheKey (dateKey : String) : String := "calendar:events:" ++ dateKey

/-- Function `clearDateCache(dateKey)`: deletes the one entry for that date. -/
def clearDateCache {α : Type} (c : TTLCache α) (dateKey : String) : TTLCache α :=
  cacheDel c (calendarCacheKey dateKey)

/-- The upstream Google calendar, reduced to what the write handlers
touch: a list of `(eventId, start)` pairs. -/
abbrev GCal : Type := List (String × String)

/-- Upstream `calendar.events.insert`: appends the new event. -/
def gcalInsert (cal : GCal) (newId startRaw : String) : GCal :=
  cal ++ [(newId, startRaw)]

/-- Upstream `calendar.events.update`: rewrites the event's data when the id
exists, otherwise fails with a 404. -/
def gcalUpdate (cal : GCal) (eventId startRaw : String) : Option GCal :=
  if cal.any fun e => e.1 == eventId then
    some (cal.map fun e => if e.1 == eventId then (e.1, startRaw) else e)
  else
    none

/-- The event ids upstream whose start maps (under the date-key function)
to the given date — the contents a `calendar:events:<d>` entry stands for. -/
def eventsOn (cal : GCal) (dateKeyOf : String → String) (d : String) : List String :=
  (cal.filter fun e => dateKeyOf e.2 == d).map fun e => e.1

/-- Observable outcome of a calendar write handler: HTTP status, upstream
calendar afterwards, cache afterwards. -/
structure CalWriteOutcome (α : Type) where
  status : Nat
  cal : GCal
  cache : TTLCache α

/-- Handler of `POST /events`: validate (`validOk` is the `validateEventData`
verdict), insert upstream, then `clearDateCache(getDateKey(eventData.start))`.
`getDateKey` parses the raw start into a date key; it is passed in as
`dateKeyOf` since its date arithmetic lives outside the embedded core. -/
def postEventHandler {α : Type} (dateKeyOf : String → String) (validOk : Bool)
    (cal : GCal) (c : TTLCache α) (newId startRaw : String) : CalWriteOutcome α :=
  if validOk = false then
    { status := 400, cal := cal, cache := c }
  else
    { status := 201, cal := gcalInsert cal newId startRaw
      cache := clearDateCache c (dateKeyOf startRaw) }

/-- Handler of `PUT /events/:eventId`: validate, update upstream (404 when the id is
unknown), then `clearDateCache(getDateKey(eventData.start))` — the date
key of the *submitted* start only. -/
def putEventHandler {α : Type} (dateKeyOf : String → String) (validOk : Bool)
    (cal : GCal) (c : TTLCache α) (eventId startRaw : String) : CalWriteOutcome α :=
  if validOk = false then
    { status := 400, cal := cal, cache := c }
  else
    match gcalUpdate cal eventId startRaw with
    | some cal2 =>
        { status := 200, cal := cal2
          cache := clearDateCache c (dateKeyOf startRaw) }
    | none =>
        { status := 404, cal := cal, cache := c }

/-! ## Unified aggregation (`src/services/unified/routes.js`)

`getToday` and `getWeek` fan out with `Promise.allSettled`; each settled
outcome is a fulfilled value or a rejection reason.  The task/fitness
post-processing helpers (`filterTasks`, `sortTasks`,
`calculateFitnessSummary`) live in the aggregator module, whose source is
not part of the embedded core; they are taken as parameters, so every
statement below holds for any implementation of them. -/

/-- One outcome of `Promise.allSettled`. -/
inductive Settled (α : Type) where
  | fulfilled (value : α)
  | rejected (reason : String)

/-- A task as the aggregation handlers inspect one: completion flag and
optional due timestamp (absent or falsy `due` is `none`). -/
structure UTask where
  completed : Bool
  due : Option Int
  deriving DecidableEq

/-- Result shape of `calculateFitnessSummary`. -/
structure FitSummary (Act : Type) where
  activities_count : Nat
  total_distance : Int
  total_duration : Int
  last_activity : Option Act

/-- One `{ service, error }` entry of the `errors` array. -/
structure ServiceFailure where
  service : String
  error : String
  deriving DecidableEq

/-- The `tasks` section of the today dashboard. -/
structure TodayTasks where
  due_today : List UTask
  overdue : List UTask
  completed_today : List UTask

/-- The `fitness` section of the today dashboard. -/
structure TodayFitness (Act : Type) where
  activities_this_week : Nat
  total_distance : Int
  total_duration : Int
  last_activity : Option Act

/-- The merged `getToday` result (summary fields inlined); `errors` is
`none` exactly when the key is absent from the JSON object. -/
structure TodayPayload (Ev Act : Type) where
  events : List Ev
  tasks : TodayTasks
  fitness : TodayFitness Act
  total_events : Nat
  total_tasks : Nat
  completed_tasks : Nat
  fitness_activities : Nat
  errors : Option (List ServiceFailure)

/-- Handler `getToday`: merge of the three settled fetches.  `filterT` and
`sortT` stand for `filterTasks` / `sortTasks` (the two-argument
`filterTasks(list, f)` call passes `none` for the omitted completed
filter), `calcSummary` for `calculateFitnessSummary`. -/
def getToday {Ev Act : Type}
    (filterT : List UTask → String → Option Bool → List UTask)
    (sortT : List UTask → List UTask)
    (calcSummary : List Act → FitSummary Act)
    (calendarEvents : Settled (List Ev)) (allTasks : Settled (List UTask))
    (stravaActivities : Settled (List Act)) : TodayPayload Ev Act :=
  let events := match calendarEvents with
    | .fulfilled v => v
    | .rejected _ => []
  let calErrs : List ServiceFailure := match calendarEvents with
    | .fulfilled _ => []
    | .rejected r => [{ service := "calendar", error := r }]
  let tasks : TodayTasks := match allTasks with
    | .fulfilled taskList =>
        { due_today := sortT (filterT taskList "today" (some false))
          overdue := sortT (filterT taskList "overdue" (some false))
          completed_today := taskList.filter fun t =>
            t.completed && !(filterT [t] "today" none).isEmpty }
    | .rejected _ => { due_today := [], overdue := [], completed_today := [] }
  let taskErrs : List ServiceFailure := match allTasks with
    | .fulfilled _ => []
    | .rejected r => [{ service := "todoist", error := r }]
  let fitness : TodayFitness Act := match stravaActivities with
    | .fulfilled activities =>
        let s := calcSummary activities
        { activities_this_week := s.activities_count
          total_distance := s.total_distance
          total_duration := s.total_duration
          last_activity := s.last_activity }
    | .rejected _ =>
        { activities_this_week := 0, total_distance := 0
          total_duration := 0, last_activity := none }
  let stravaErrs : List ServiceFailure := match stravaActivities with
    | .fulfilled _ => []
    | .rejected r => [{ service := "strava", error := r }]
  let errs := calErrs ++ taskErrs ++ stravaErrs
  { events := events
    tasks := tasks
    fitness := fitness
    total_events := events.length
    total_tasks := tasks.due_today.length + tasks.overdue.length
    completed_tasks := tasks.completed_today.length
    fitness_activities := fitness.activities_this_week
    errors := if errs.isEmpty then none else some errs }

/-- The `fitness` section of the week view. -/
structure WeekFitness (Act : Type) where
  activities_count : Nat
  total_distance : Int
  total_duration : Int
  activities : List Act

/-- The merged `getWeek` result (summary fields inlined). -/
structure WeekPayload (Ev Act : Type) where
  events : List Ev
  tasks : List UTask
  fitness : WeekFitness Act
  total_events : Nat
  total_tasks : Nat
  fitness_activities : Nat
  errors : Option (List ServiceFailure)

/-- Handler `getWeek`: merge of the three settled fetches over the week
`[start, end]` (due-date bounds inclusive, per `dueDate >= start &&
dueDate <= end`). -/
def getWeek {Ev Act : Type}
    (sortT : List UTask → List UTask)
    (calcSummary : List Act → FitSummary Act)
    (startT endT : Int)
    (calendarEvents : Settled (List Ev)) (allTasks : Settled (List UTask))
    (stravaActivities : Settled (List Act)) : WeekPayload Ev Act :=
  let events := match calendarEvents with
    | .fulfilled v => v
    | .rejected _ => []
  let calErrs : List ServiceFailure := match calendarEvents with
    | .fulfilled _ => []
    | .rejected r => [{ service := "calendar", error := r }]
  let tasks : List UTask := match allTasks with
    | .fulfilled taskList =>
        sortT (taskList.filter fun t =>
          match t.due with
          | none => false
          | some d => decide (startT ≤ d ∧ d ≤ endT))
    | .rejected _ => []
  let taskErrs : List ServiceFailure := match allTasks with
    | .fulfilled _ => []
    | .rejected r => [{ service := "todoist", error := r }]
  let fitness : WeekFitness Act := match stravaActivities with
    | .fulfilled activities =>
        let s := calcSummary activities
        { activities_count := s.activities_count
          total_distance := s.total_distance
          total_duration := s.total_duration
          activities := activities.take 10 }
    | .rejected _ =>
        { activities_count := 0, total_distance := 0
          total_duration := 0, activities := [] }
  let stravaErrs : List ServiceFailure := match stravaActivities with
    | .fulfilled _ => []
    | .rejected r => [{ service := "strava", error := r }]
  let errs := calErrs ++ taskErrs ++ stravaErrs
  { events := events
    tasks := tasks
    fitness := fitness
    total_events := events.length
    total_tasks := tasks.length
    fitness_activities := fitness.activities_count
    errors := if errs.isEmpty then none else some errs }

/-! # Theorems -/

/-- C2: whenever the shock request body's `confirm` field is not exactly
boolean `true` (absent included), `triggerShock` responds 400 before the
rate limiter matters: for every rate-limiter state, intensity and
upstream outcome, the response is the validation failure, no upstream
shock call is made, the last-trigger timestamp is unchanged, and no
history record is attempted. -/
theorem triggerShock_confirmation_gate
    (lastShock tCheck tTrigger : Nat) (intensity confirm reason : JsVal)
    (shockResult : Except UpstreamError Unit) (saveOk : Bool)
    (h : confirm ≠ JsVal.bool true) :
    (triggerShock lastShock tCheck tTrigger intensity confirm reason shockResult saveOk).status = 400 ∧
    (triggerShock lastShock tCheck tTrigger intensity confirm reason shockResult saveOk).upstreamCalled = false ∧
    (triggerShock lastShock tCheck tTrigger intensity confirm reason shockResult saveOk).lastAction = lastShock ∧
    (triggerShock lastShock tCheck tTrigger intensity confirm reason shockResult saveOk).logAttempt = none := by
  simp [triggerShock, h]

/-- C2 witness: `intensity = 2`, `confirm` omitted (`undefined`), with the
rate limiter mid-cooldown (`lastActionTime = 0`, `now = 100`): the
response is 400, not 429, with no upstream call and no state change. -/
theorem triggerShock_confirmation_gate_witness :
    (triggerShock 0 100 100 (JsVal.num 2) JsVal.undef JsVal.null (Except.ok ()) true).status = 400 ∧
    (triggerShock 0 100 100 (JsVal.num 2) JsVal.undef JsVal.null (Except.ok ()) true).upstreamCalled = false ∧
    (triggerShock 0 100 100 (JsVal.num 2) JsVal.undef JsVal.null (Except.ok ()) true).lastAction = 0 ∧
    (triggerShock 0 100 100 (JsVal.num 2) JsVal.undef JsVal.null (Except.ok ()) true).logAttempt = none :=
  triggerShock_confirmation_gate 0 100 100 (JsVal.num 2) JsVal.undef JsVal.null
    (Except.ok ()) true (by decide)

/-- C6 counterexample: `secondsRemaining` is not strictly decreasing
across successive in-cooldown calls.  After a trigger at T = 0, checks at
100 ms and 200 ms both sit inside the 5-second window and both report
`timeRemaining = 5`, because `Math.ceil((5000 - elapsed) / 1000)` is
constant across each whole second. -/
theorem checkRateLimit_remaining_can_repeat :
    (0:Nat) < 100 ∧ (100:Nat) < 200 ∧ (200:Nat) < 0 + RATE_LIMIT_MS ∧
    (checkRateLimit (updateRateLimit 0) 100).allowed = false ∧
    (checkRateLimit (updateRateLimit 0) 200).allowed = false ∧
    (checkRateLimit (updateRateLimit 0) 100).timeRemaining = some 5 ∧
    (checkRateLimit (updateRateLimit 0) 200).timeRemaining = some 5 := by
  decide

/-- C6 amended: after `updateRateLimit` at T, every check strictly inside
`(T, T + 5000 ms)` returns `allowed = false` with a positive
`timeRemaining` that is *non-increasing* (weakly decreasing) across
successive calls, and every check at or after `T + 5000 ms` returns
`allowed = true`. -/
theorem checkRateLimit_cooldown_window (T T1 T2 T3 : Nat)
    (h1 : T < T1) (h12 : T1 ≤ T2) (h2 : T2 < T + RATE_LIMIT_MS)
    (h3 : T + RATE_LIMIT_MS ≤ T3) :
    (checkRateLimit (updateRateLimit T) T1).allowed = false ∧
    (checkRateLimit (updateRateLimit T) T2).allowed = false ∧
    (checkRateLimit (updateRateLimit T) T2).timeRemaining.getD 0 ≤
      (checkRateLimit (updateRateLimit T) T1).timeRemaining.getD 0 ∧
    1 ≤ (checkRateLimit (updateRateLimit T) T2).timeRemaining.getD 0 ∧
    (checkRateLimit (updateRateLimit T) T3).allowed = true := by
  simp only [RATE_LIMIT_MS] at h2 h3
  have hA : T1 - T < 5000 := by omega
  have hB : T2 - T < 5000 := by omega
  have hC : ¬ (T3 - T < 5000) := by omega
  refine ⟨?_, ?_, ?_, ?_, ?_⟩ <;>
    (simp [checkRateLimit, updateRateLimit, RATE_LIMIT_MS, hA, hB, hC] <;> omega)

/-- C6 amended, witness at T = 0 with checks at 1000 ms, 4999 ms and
5000 ms. -/
theorem checkRateLimit_cooldown_window_witness :
    (checkRateLimit (updateRateLimit 0) 1000).allowed = false ∧
    (checkRateLimit (updateRateLimit 0) 4999).allowed = false ∧
    (checkRateLimit (updateRateLimit 0) 4999).timeRemaining.getD 0 ≤
      (checkRateLimit (updateRateLimit 0) 1000).timeRemaining.getD 0 ∧
    1 ≤ (checkRateLimit (updateRateLimit 0) 4999).timeRemaining.getD 0 ∧
    (checkRateLimit (updateRateLimit 0) 5000).allowed = true :=
  checkRateLimit_cooldown_window 0 1000 4999 5000 (by decide) (by decide)
    (by decide) (by decide)

/-- C10: when the upstream device call throws, no handler updates the
rate-limit timestamp — `updateRateLimit` runs only on the success path —
so the class's cooldown state is exactly what it was before the failed
trigger (a subsequent check behaves as if the failed trigger never
happened), while the failure is still submitted to the history log with
`success = false`.  Stated for beep, vibration and shock alike. -/
theorem trigger_upstream_failure_leaves_rateLimit
    (last tCheck tTrigger tNext : Nat) (intensity reason : JsVal)
    (e : UpstreamError) (saveOk : Bool)
    (hv : (validateIntensity intensity).valid = true)
    (hr : (checkRateLimit last tCheck).allowed = true) :
    (triggerBeep last tCheck tTrigger intensity reason (Except.error e) saveOk).upstreamCalled = true ∧
    (triggerBeep last tCheck tTrigger intensity reason (Except.error e) saveOk).lastAction = last ∧
    (triggerBeep last tCheck tTrigger intensity reason (Except.error e) saveOk).logAttempt =
      some { type := "beep", intensity := intensity, reason := reason
             success := false, error := some e.message } ∧
    checkRateLimit (triggerBeep last tCheck tTrigger intensity reason (Except.error e) saveOk).lastAction tNext =
      checkRateLimit last tNext ∧
    (triggerVibration last tCheck tTrigger intensity reason (Except.error e) saveOk).upstreamCalled = true ∧
    (triggerVibration last tCheck tTrigger intensity reason (Except.error e) saveOk).lastAction = last ∧
    (triggerVibration last tCheck tTrigger intensity reason (Except.error e) saveOk).logAttempt =
      some { type := "vibrate", intensity := intensity, reason := reason
             success := false, error := some e.message } ∧
    (triggerShock last tCheck tTrigger intensity (JsVal.bool true) reason (Except.error e) saveOk).upstreamCalled = true ∧
    (triggerShock last tCheck tTrigger intensity (JsVal.bool true) reason (Except.error e) saveOk).lastAction = last ∧
    (triggerShock last tCheck tTrigger intensity (JsVal.bool true) reason (Except.error e) saveOk).logAttempt =
      some { type := "shock", intensity := intensity, reason := reason
             success := false, error := some e.message } ∧
    checkRateLimit (triggerShock last tCheck tTrigger intensity (JsVal.bool true) reason (Except.error e) saveOk).lastAction tNext =
      checkRateLimit last tNext := by
  simp [triggerBeep, triggerVibration, triggerShock, hv, hr]

/-- C10 witness: valid intensity 2, rate limiter clear (last trigger at 0,
check at 6000 ms), upstream failing with a 502. -/
theorem trigger_upstream_failure_leaves_rateLimit_witness :
    (triggerBeep 0 6000 6000 (JsVal.num 2) JsVal.null
        (Except.error { message := "device unreachable", status := some 502 }) true).upstreamCalled = true ∧
    (triggerBeep 0 6000 6000 (JsVal.num 2) JsVal.null
        (Except.error { message := "device unreachable", status := some 502 }) true).lastAction = 0 ∧
    (triggerBeep 0 6000 6000 (JsVal.num 2) JsVal.null
        (Except.error { message := "device unreachable", status := some 502 }) true).logAttempt =
      some { type := "beep", intensity := JsVal.num 2, reason := JsVal.null
             success := false, error := some "device unreachable" } ∧
    checkRateLimit (triggerBeep 0 6000 6000 (JsVal.num 2) JsVal.null
        (Except.error { message := "device unreachable", status := some 502 }) true).lastAction 6100 =
      checkRateLimit 0 6100 ∧
    (triggerVibration 0 6000 6000 (JsVal.num 2) JsVal.null
        (Except.error { message := "device unreachable", status := some 502 }) true).upstreamCalled = true ∧
    (triggerVibration 0 6000 6000 (JsVal.num 2) JsVal.null
        (Except.error { message := "device unreachable", status := some 502 }) true).lastAction = 0 ∧
    (triggerVibration 0 6000 6000 (JsVal.num 2) JsVal.null
        (Except.error { message := "device unreachable", status := some 502 }) true).logAttempt =
      some { type := "vibrate", intensity := JsVal.num 2, reason := JsVal.null
             success := false, error := some "device unreachable" } ∧
    (triggerShock 0 6000 6000 (JsVal.num 2) (JsVal.bool true) JsVal.null
        (Except.error { message := "device unreachable", status := some 502 }) true).upstreamCalled = true ∧
    (triggerShock 0 6000 6000 (JsVal.num 2) (JsVal.bool true) JsVal.null
        (Except.error { message := "device unreachable", status := some 502 }) true).lastAction = 0 ∧
    (triggerShock 0 6000 6000 (JsVal.num 2) (JsVal.bool true) JsVal.null
        (Except.error { message := "device unreachable", status := some 502 }) true).logAttempt =
      some { type := "shock", intensity := JsVal.num 2, reason := JsVal.null
             success := false, error := some "device unreachable" } ∧
    checkRateLimit (triggerShock 0 6000 6000 (JsVal.num 2) (JsVal.bool true) JsVal.null
        (Except.error { message := "device unreachable", status := some 502 }) true).lastAction 6100 =
      checkRateLimit 0 6100 :=
  trigger_upstream_failure_leaves_rateLimit 0 6000 6000 6100 (JsVal.num 2) JsVal.null
    { message := "device unreachable", status := some 502 } true (by decide) (by decide)

/-- C9: once the shock handler reaches the upstream call, a history
record carrying the actual outcome (`success = true` on success,
`success = false` with the error message on upstream failure) is
submitted to `logStimulus` after the call; and the handler's response —
status, `success` flag and rate-limit state — is identical whether or not
that history write persists, the persistence failure being swallowed.
Beep and vibration behave the same way. -/
theorem stimulus_history_after_upstream_nonblocking
    (last tCheck tTrigger : Nat) (intensity reason : JsVal)
    (r : Except UpstreamError Unit) (saveOk : Bool)
    (hv : (validateIntensity intensity).valid = true)
    (hr : (checkRateLimit last tCheck).allowed = true) :
    (triggerShock last tCheck tTrigger intensity (JsVal.bool true) reason r saveOk).upstreamCalled = true ∧
    (triggerShock last tCheck tTrigger intensity (JsVal.bool true) reason r saveOk).logAttempt =
      some { type := "shock", intensity := intensity, reason := reason
             success := match r with | .ok _ => true | .error _ => false
             error := match r with | .ok _ => none | .error e => some e.message } ∧
    (triggerShock last tCheck tTrigger intensity (JsVal.bool true) reason r saveOk).status =
      (triggerShock last tCheck tTrigger intensity (JsVal.bool true) reason r true).status ∧
    (triggerShock last tCheck tTrigger intensity (JsVal.bool true) reason r saveOk).success =
      (triggerShock last tCheck tTrigger intensity (JsVal.bool true) reason r true).success ∧
    (triggerShock last tCheck tTrigger intensity (JsVal.bool true) reason r saveOk).lastAction =
      (triggerShock last tCheck tTrigger intensity (JsVal.bool true) reason r true).lastAction ∧
    (triggerShock last tCheck tTrigger intensity (JsVal.bool true) reason r false).dbRecord = none ∧
    (triggerBeep last tCheck tTrigger intensity reason r saveOk).logAttempt =
      some { type := "beep", intensity := intensity, reason := reason
             success := match r with | .ok _ => true | .error _ => false
             error := match r with | .ok _ => none | .error e => some e.message } ∧
    (triggerBeep last tCheck tTrigger intensity reason r saveOk).status =
      (triggerBeep last tCheck tTrigger intensity reason r true).status ∧
    (triggerVibration last tCheck tTrigger intensity reason r saveOk).logAttempt =
      some { type := "vibrate", intensity := intensity, reason := reason
             success := match r with | .ok _ => true | .error _ => false
             error := match r with | .ok _ => none | .error e => some e.message } ∧
    (triggerVibration last tCheck tTrigger intensity reason r saveOk).status =
      (triggerVibration last tCheck tTrigger intensity reason r true).status := by
  cases r <;>
    simp [triggerShock, triggerBeep, triggerVibration, logStimulus, hv, hr]

/-- C9 witness: valid intensity 3, rate limiter clear, upstream failing
with a 502, history write failing (`saveOk = false`): the record was
submitted with the failure outcome and the response equals the one with a
healthy history store. -/
theorem stimulus_history_after_upstream_nonblocking_witness :
    (triggerShock 0 6000 6000 (JsVal.num 3) (JsVal.bool true) JsVal.null
        (Except.error { message := "bad gateway", status := some 502 }) false).upstreamCalled = true ∧
    (triggerShock 0 6000 6000 (JsVal.num 3) (JsVal.bool true) JsVal.null
        (Except.error { message := "bad gateway", status := some 502 }) false).logAttempt =
      some { type := "shock", intensity := JsVal.num 3, reason := JsVal.null
             success := false, error := some "bad gateway" } ∧
    (triggerShock 0 6000 6000 (JsVal.num 3) (JsVal.bool true) JsVal.null
        (Except.error { message := "bad gateway", status := some 502 }) false).status =
      (triggerShock 0 6000 6000 (JsVal.num 3) (JsVal.bool true) JsVal.null
        (Except.error { message := "bad gateway", status := some 502 }) true).status ∧
    (triggerShock 0 6000 6000 (JsVal.num 3) (JsVal.bool true) JsVal.null
        (Except.error { message := "bad gateway", status := some 502 }) false).success =
      (triggerShock 0 6000 6000 (JsVal.num 3) (JsVal.bool true) JsVal.null
        (Except.error { message := "bad gateway", status := some 502 }) true).success ∧
    (triggerShock 0 6000 6000 (JsVal.num 3) (JsVal.bool true) JsVal.null
        (Except.error { message := "bad gateway", status := some 502 }) false).lastAction =
      (triggerShock 0 6000 6000 (JsVal.num 3) (JsVal.bool true) JsVal.null
        (Except.error { message := "bad gateway", status := some 502 }) true).lastAction ∧
    (triggerShock 0 6000 6000 (JsVal.num 3) (JsVal.bool true) JsVal.null
        (Except.error { message := "bad gateway", status := some 502 }) false).dbRecord = none ∧
    (triggerBeep 0 6000 6000 (JsVal.num 3) JsVal.null
        (Except.error { message := "bad gateway", status := some 502 }) false).logAttempt =
      some { type := "beep", intensity := JsVal.num 3, reason := JsVal.null
             success := false, error := some "bad gateway" } ∧
    (triggerBeep 0 6000 6000 (JsVal.num 3) JsVal.null
        (Except.error { message := "bad gateway", status := some 502 }) false).status =
      (triggerBeep 0 6000 6000 (JsVal.num 3) JsVal.null
        (Except.error { message := "bad gateway", status := some 502 }) true).status ∧
    (triggerVibration 0 6000 6000 (JsVal.num 3) JsVal.null
        (Except.error { message := "bad gateway", status := some 502 }) false).logAttempt =
      some { type := "vibrate", intensity := JsVal.num 3, reason := JsVal.null
             success := false, error := some "bad gateway" } ∧
    (triggerVibration 0 6000 6000 (JsVal.num 3) JsVal.null
        (Except.error { message := "bad gateway", status := some 502 }) false).status =
      (triggerVibration 0 6000 6000 (JsVal.num 3) JsVal.null
        (Except.error { message := "bad gateway", status := some 502 }) true).status :=
  stimulus_history_after_upstream_nonblocking 0 6000 6000 (JsVal.num 3) JsVal.null
    (Except.error { message := "bad gateway", status := some 502 }) false
    (by decide) (by decide)

/-- C5 counterexample: at the boundary `expiresAt - now = 300` the client
performs *no* refresh — `timeUntilExpiry < TOKEN_REFRESH_BUFFER` is a
strict comparison — contradicting the claim that equality with the buffer
triggers a refresh.  With the token expiring exactly 300 seconds from
now, no request is sent upstream and the stored record is returned as-is. -/
theorem ensureValidToken_boundary_no_refresh :
    (ensureValidToken false
        { access_token := "a", refresh_token := "r", expires_at := 300 } 0
        (fun _ => Except.error "upstream")).sent = [] ∧
    (ensureValidToken false
        { access_token := "a", refresh_token := "r", expires_at := 300 } 0
        (fun _ => Except.error "upstream")).result =
      Except.ok { access_token := "a", refresh_token := "r", expires_at := 300 } ∧
    (ensureValidToken false
        { access_token := "a", refresh_token := "r", expires_at := 300 } 0
        (fun _ => Except.error "upstream")).state =
      { access_token := "a", refresh_token := "r", expires_at := 300 } := by
  refine ⟨rfl, rfl, rfl⟩

/-- C5 amended: the non-manual client performs refresh I/O — exactly one
upstream call carrying the stored refresh token — precisely when
`expiresAt - now` is *strictly* below the 300-second buffer; whenever
`expiresAt - now ≥ 300` (the boundary case included) it performs no I/O
and hands back the stored record unchanged. -/
theorem ensureValidToken_strict_buffer (st : TokenRecord) (now : Int)
    (upstream : String → Except String TokenRecord) :
    ((ensureValidToken false st now upstream).sent = [st.refresh_token]
        ↔ st.expires_at - now < TOKEN_REFRESH_BUFFER) ∧
    ((ensureValidToken false st now upstream).sent = []
        ↔ TOKEN_REFRESH_BUFFER ≤ st.expires_at - now) ∧
    ((ensureValidToken false st now upstream).sent = []
        ↔ ensureValidToken false st now upstream =
            { result := Except.ok st, state := st, persisted := none, sent := [] }) ∧
    ((ensureValidToken false st now upstream).sent = [st.refresh_token]
        ↔ ensureValidToken false st now upstream = refreshTokenStep st upstream) := by
  by_cases h : st.expires_at - now < TOKEN_REFRESH_BUFFER
  · have hn : ¬ TOKEN_REFRESH_BUFFER ≤ st.expires_at - now := by omega
    cases hu : upstream st.refresh_token <;>
      simp [ensureValidToken, refreshTokenStep, h, hn, hu]
  · have hn : TOKEN_REFRESH_BUFFER ≤ st.expires_at - now := by omega
    cases hu : upstream st.refresh_token <;>
      simp [ensureValidToken, refreshTokenStep, h, hn, hu]

/-- C7: when the upstream token endpoint rejects the refresh, the thrown
error instructs re-authorization, the stored token record (access token,
refresh token, expiry) is exactly what it was before the attempt, nothing
is persisted, and exactly one upstream call — carrying the stored refresh
token — was made, with no retry. -/
theorem refreshToken_failure_preserves_record (st : TokenRecord)
    (upstream : String → Except String TokenRecord) (msg : String)
    (h : upstream st.refresh_token = Except.error msg) :
    (refreshTokenStep st upstream).result =
      Except.error "Token refresh failed. You may need to re-authorize: node services/strava/oauth-setup.js" ∧
    (refreshTokenStep st upstream).state = st ∧
    (refreshTokenStep st upstream).persisted = none ∧
    (refreshTokenStep st upstream).sent = [st.refresh_token] := by
  simp [refreshTokenStep, h]

/-- C7 witness: a refresh rejected with "revoked" leaves the record
`("a", "r0", 1000)` in place and surfaces the re-authorization error. -/
theorem refreshToken_failure_preserves_record_witness :
    (refreshTokenStep { access_token := "a", refresh_token := "r0", expires_at := 1000 }
        (fun _ => Except.error "revoked")).result =
      Except.error "Token refresh failed. You may need to re-authorize: node services/strava/oauth-setup.js" ∧
    (refreshTokenStep { access_token := "a", refresh_token := "r0", expires_at := 1000 }
        (fun _ => Except.error "revoked")).state =
      { access_token := "a", refresh_token := "r0", expires_at := 1000 } ∧
    (refreshTokenStep { access_token := "a", refresh_token := "r0", expires_at := 1000 }
        (fun _ => Except.error "revoked")).persisted = none ∧
    (refreshTokenStep { access_token := "a", refresh_token := "r0", expires_at := 1000 }
        (fun _ => Except.error "revoked")).sent = ["r0"] :=
  refreshToken_failure_preserves_record
    { access_token := "a", refresh_token := "r0", expires_at := 1000 }
    (fun _ => Except.error "revoked") "revoked" rfl

/-- C1: two concurrent `_ensureValidToken` callers over a token inside
the refresh buffer, interleaved at the `axios.post` suspension point.
After each caller's synchronous prefix runs (`issue 0`, `issue 1`), two
upstream refresh requests are in flight at once, both carrying
`"refresh0"`.  When the first completes, the provider rotates to
`"refresh1"`, so the second caller's still-in-flight request now carries
an already-rotated refresh token; when it completes, that caller fails
while the first got the new access token — one refresh per caller, stale
token sent, and not all callers receive the same token. -/
theorem stravaRefresh_concurrent_double_refresh :
    inflightCount (refreshRun 0 staleWorld2 [.issue 0, .issue 1]) = 2 ∧
    (refreshRun 0 staleWorld2 [.issue 0, .issue 1]).callers =
      [CallerState.inflight "refresh0", CallerState.inflight "refresh0"] ∧
    hasStaleInflight (refreshRun 0 staleWorld2 [.issue 0, .issue 1, .complete 0]) = true ∧
    (refreshRun 0 staleWorld2 [.issue 0, .issue 1, .complete 0]).providerRefresh = "refresh1" ∧
    (refreshRun 0 staleWorld2 [.issue 0, .issue 1, .complete 0, .complete 1]).callers =
      [CallerState.gotToken "access1", CallerState.failed] := by
  decide

/-- Reading back a freshly set key: the value is served strictly before
`now + ttl` and absent from then on. -/
theorem cacheGet_cacheSet_self {α : Type} (c : TTLCache α) (k : String) (v : α)
    (ttl now t : Nat) :
    cacheGet (cacheSet c k v ttl now) k t = if t < now + ttl then some v else none := by
  simp [cacheGet, cacheSet]

/-- Deleting a key makes its reads miss and leaves every other key's
reads unchanged. -/
theorem cacheGet_cacheDel {α : Type} (c : TTLCache α) (key k : String) (t : Nat) :
    cacheGet (cacheDel c key) k t = if k = key then none else cacheGet c k t := by
  induction c with
  | nil => simp [cacheGet, cacheDel]
  | cons e rest ih =>
      obtain ⟨k', v, exp⟩ := e
      by_cases he : k' = key
      · subst he
        rw [show cacheDel ((k', v, exp) :: rest) k' = cacheDel rest k' from by
          simp [cacheDel], ih]
        by_cases hk : k = k'
        · simp [hk]
        · have h2 : ¬ k' = k := fun h => hk h.symm
          simp [cacheGet, hk, h2]
      · by_cases hek : k' = k
        · have hkkey : ¬ k = key := by rw [← hek]; exact he
          simp [cacheGet, cacheDel, he, hek, hkkey]
        · by_cases hk : k = key
          · subst hk
            simp [cacheGet, cacheDel, he, hek, ih]
          · simp [cacheGet, cacheDel, he, hek, hk, ih]

/-- C3 counterexample: a key stored with a falsy value is re-fetched even
while its entry is alive.  `0` is cached under `"k"` at T0 = 40 with
TTL 60; at T = 50 (strictly before T0 + 60) the cache read *hits* and
returns the stored `0`, yet `getCachedOrFetch` — whose hit test is the
JavaScript truthiness check `if (cached)` — invokes its fetch function
anyway, so fetch is not invoked exactly on misses. -/
theorem getCachedOrFetch_refetches_falsy_hit :
    cacheGet (cacheSet ([] : TTLCache JsVal) "k" (JsVal.num 0) 60 40) "k" 50 =
      some (JsVal.num 0) ∧
    (getCachedOrFetch (cacheSet ([] : TTLCache JsVal) "k" (JsVal.num 0) 60 40)
        "k" 60 (JsVal.str "fresh") 50).fetchCalled = true ∧
    (getCachedOrFetch (cacheSet ([] : TTLCache JsVal) "k" (JsVal.num 0) 60 40)
        "k" 60 (JsVal.str "fresh") 50).data = JsVal.str "fresh" := by
  decide

/-- C3 amended: the TTL read contract holds — a key set with TTL `t` at
`T0` is served at every instant strictly before `T0 + t` and absent at or
after it — and `getCachedOrFetch` invokes its fetch function exactly when
the read misses *or the cached value is falsy* (the hit test is JavaScript
truthiness); when it fetches it caches the fetched value under the same
key and TTL and returns it, and on a truthy hit it returns the cached
value with the cache untouched. -/
theorem cache_ttl_and_truthy_refetch (c : TTLCache JsVal) (k : String)
    (v fetched : JsVal) (ttl d now t : Nat) :
    (cacheGet (cacheSet c k v ttl now) k t = if t < now + ttl then some v else none) ∧
    ((getCachedOrFetch c k d fetched now).fetchCalled = true ↔
      (cacheGet c k now = none ∨
        ∃ w, cacheGet c k now = some w ∧ truthy w = false)) ∧
    ((getCachedOrFetch c k d fetched now).fetchCalled = true ↔
      getCachedOrFetch c k d fetched now =
        { data := fetched, fromCache := false
          cacheAfter := cacheSet c k fetched d now, fetchCalled := true }) ∧
    ((getCachedOrFetch c k d fetched now).fetchCalled = false ↔
      ∃ w, cacheGet c k now = some w ∧ truthy w = true ∧
        getCachedOrFetch c k d fetched now =
          { data := w, fromCache := true, cacheAfter := c, fetchCalled := false }) := by
  refine ⟨cacheGet_cacheSet_self c k v ttl now t, ?_, ?_, ?_⟩ <;>
    (cases hw : cacheGet c k now with
     | none => simp [getCachedOrFetch, hw]
     | some w => cases ht : truthy w <;> simp [getCachedOrFetch, hw, ht])

/-- C8 counterexample: a date-moving update leaves the old date's cache
entry stale.  Upstream holds event `e1` on `d1` and the cache entry for
`calendar:events:d1` is in sync (`["e1"]`).  A successful
`PUT /events/e1` moving the start to `d2` clears only `d2`'s key, so the
`d1` entry — whose true contents the write changed from `["e1"]` to
`[]` — is still present and a subsequent read still serves `["e1"]`. -/
theorem putEvent_leaves_old_date_stale :
    cacheGet ([("calendar:events:d1", ["e1"], 100)] : TTLCache (List String))
      "calendar:events:d1" 0 =
      some (eventsOn [("e1", "d1")] (fun s => s) "d1") ∧
    (putEventHandler (fun s => s) true [("e1", "d1")]
        ([("calendar:events:d1", ["e1"], 100)] : TTLCache (List String))
        "e1" "d2").status = 200 ∧
    eventsOn (putEventHandler (fun s => s) true [("e1", "d1")]
        ([("calendar:events:d1", ["e1"], 100)] : TTLCache (List String))
        "e1" "d2").cal (fun s => s) "d1" = [] ∧
    cacheGet (putEventHandler (fun s => s) true [("e1", "d1")]
        ([("calendar:events:d1", ["e1"], 100)] : TTLCache (List String))
        "e1" "d2").cache "calendar:events:d1" 0 = some ["e1"] := by
  decide

/-- C8 amended: a successful write through the calendar adapter
invalidates exactly the `calendar:events:<d>` entry for the date key of
the *submitted* start time: after `POST /events` or a found
`PUT /events/:eventId`, a read of that one key misses and a read of every
other key is unchanged; a `PUT` whose event id is unknown (404) leaves
the cache untouched. -/
theorem calendarWrite_invalidates_new_start_date {α : Type}
    (dateKeyOf : String → String) (cal : GCal) (c : TTLCache α)
    (newId eventId startRaw k : String) (t : Nat) :
    (postEventHandler dateKeyOf true cal c newId startRaw).status = 201 ∧
    (postEventHandler dateKeyOf true cal c newId startRaw).cal =
      gcalInsert cal newId startRaw ∧
    (cacheGet (postEventHandler dateKeyOf true cal c newId startRaw).cache k t =
      if k = calendarCacheKey (dateKeyOf startRaw) then none else cacheGet c k t) ∧
    (cacheGet (putEventHandler dateKeyOf true cal c eventId startRaw).cache k t =
      if (cal.any fun e => e.1 == eventId) = true ∧
          k = calendarCacheKey (dateKeyOf startRaw)
      then none else cacheGet c k t) := by
  refine ⟨rfl, rfl, ?_, ?_⟩
  · simpa [postEventHandler, clearDateCache] using
      cacheGet_cacheDel c (calendarCacheKey (dateKeyOf startRaw)) k t
  · by_cases ha : (cal.any fun e => e.1 == eventId) = true
    · simpa [putEventHandler, gcalUpdate, ha, clearDateCache] using
        cacheGet_cacheDel c (calendarCacheKey (dateKeyOf startRaw)) k t
    · simp [putEventHandler, gcalUpdate, ha]

/-- C4: in `getToday` and `getWeek` every settled combination of the
three fan-out fetches yields a merged result (the merge is a total
function — no source's rejection escapes as an exception): each fulfilled
source's data lands in its section, each rejected source's section holds
the neutral empty default and contributes exactly one `{service, error}`
entry naming it, and the `errors` key is absent precisely when all three
fetches were fulfilled.  Holds for every implementation of the
`filterTasks` / `sortTasks` / `calculateFitnessSummary` helpers. -/
theorem aggregation_partial_results {Ev Act : Type}
    (filterT : List UTask → String → Option Bool → List UTask)
    (sortT : List UTask → List UTask) (calcSummary : List Act → FitSummary Act)
    (startT endT : Int) (evs : List Ev) (taskList : List UTask) (acts : List Act)
    (rc rt rs : String)
    (cal : Settled (List Ev)) (tk : Settled (List UTask)) (sv : Settled (List Act)) :
    (getToday filterT sortT calcSummary (.fulfilled evs) (.fulfilled taskList)
        (.fulfilled acts)).errors = none ∧
    (getToday filterT sortT calcSummary (.fulfilled evs) (.fulfilled taskList)
        (.fulfilled acts)).events = evs ∧
    (getToday filterT sortT calcSummary (.fulfilled evs) (.fulfilled taskList)
        (.fulfilled acts)).tasks =
      { due_today := sortT (filterT taskList "today" (some false))
        overdue := sortT (filterT taskList "overdue" (some false))
        completed_today := taskList.filter fun u =>
          u.completed && !(filterT [u] "today" none).isEmpty } ∧
    (getToday filterT sortT calcSummary (.fulfilled evs) (.fulfilled taskList)
        (.fulfilled acts)).fitness =
      { activities_this_week := (calcSummary acts).activities_count
        total_distance := (calcSummary acts).total_distance
        total_duration := (calcSummary acts).total_duration
        last_activity := (calcSummary acts).last_activity } ∧
    (getToday filterT sortT calcSummary (Settled.rejected rc : Settled (List Ev))
        (.fulfilled taskList) (.fulfilled acts)).events = ([] : List Ev) ∧
    (getToday filterT sortT calcSummary (Settled.rejected rc : Settled (List Ev))
        (.fulfilled taskList) (.fulfilled acts)).errors =
      some [{ service := "calendar", error := rc }] ∧
    (getToday filterT sortT calcSummary (Settled.rejected rc : Settled (List Ev))
        (.fulfilled taskList) (.fulfilled acts)).tasks =
      (getToday filterT sortT calcSummary (.fulfilled evs) (.fulfilled taskList)
        (.fulfilled acts)).tasks ∧
    (getToday filterT sortT calcSummary (.fulfilled evs) (.rejected rt)
        (.fulfilled acts)).tasks =
      { due_today := [], overdue := [], completed_today := [] } ∧
    (getToday filterT sortT calcSummary (.fulfilled evs) (.rejected rt)
        (.fulfilled acts)).errors = some [{ service := "todoist", error := rt }] ∧
    (getToday filterT sortT calcSummary (.fulfilled evs) (.rejected rt)
        (.fulfilled acts)).events = evs ∧
    (getToday filterT sortT calcSummary (.fulfilled evs) (.fulfilled taskList)
        (.rejected rs)).fitness =
      { activities_this_week := 0, total_distance := 0
        total_duration := 0, last_activity := none } ∧
    (getToday filterT sortT calcSummary (.fulfilled evs) (.fulfilled taskList)
        (.rejected rs)).errors = some [{ service := "strava", error := rs }] ∧
    (getToday filterT sortT calcSummary (.rejected rc) (.rejected rt)
        (.rejected rs) : TodayPayload Ev Act).errors =
      some [{ service := "calendar", error := rc },
            { service := "todoist", error := rt },
            { service := "strava", error := rs }] ∧
    ((getToday filterT sortT calcSummary cal tk sv).errors = none ↔
      (∃ x, cal = .fulfilled x) ∧ (∃ x, tk = .fulfilled x) ∧ (∃ x, sv = .fulfilled x)) ∧
    (getWeek sortT calcSummary startT endT (.fulfilled evs) (.fulfilled taskList)
        (.fulfilled acts)).errors = none ∧
    (getWeek sortT calcSummary startT endT (.fulfilled evs) (.fulfilled taskList)
        (.fulfilled acts)).tasks =
      sortT (taskList.filter fun u =>
        match u.due with
        | none => false
        | some dd => decide (startT ≤ dd ∧ dd ≤ endT)) ∧
    (getWeek sortT calcSummary startT endT (.fulfilled evs) (.fulfilled taskList)
        (.fulfilled acts)).fitness =
      { activities_count := (calcSummary acts).activities_count
        total_distance := (calcSummary acts).total_distance
        total_duration := (calcSummary acts).total_duration
        activities := acts.take 10 } ∧
    (getWeek sortT calcSummary startT endT (Settled.rejected rc : Settled (List Ev))
        (.fulfilled taskList) (.fulfilled acts)).events = ([] : List Ev) ∧
    (getWeek sortT calcSummary startT endT (Settled.rejected rc : Settled (List Ev))
        (.fulfilled taskList) (.fulfilled acts)).errors =
      some [{ service := "calendar", error := rc }] ∧
    (getWeek sortT calcSummary startT endT (.fulfilled evs) (.rejected rt)
        (.fulfilled acts)).tasks = [] ∧
    (getWeek sortT calcSummary startT endT (.fulfilled evs) (.rejected rt)
        (.fulfilled acts)).errors = some [{ service := "todoist", error := rt }] ∧
    (getWeek sortT calcSummary startT endT (.fulfilled evs) (.fulfilled taskList)
        (.rejected rs)).fitness =
      { activities_count := 0, total_distance := 0
        total_duration := 0, activities := [] } ∧
    (getWeek sortT calcSummary startT endT (.fulfilled evs) (.fulfilled taskList)
        (.rejected rs)).errors = some [{ service := "strava", error := rs }] ∧
    ((getWeek sortT calcSummary startT endT cal tk sv).errors = none ↔
      (∃ x, cal = .fulfilled x) ∧ (∃ x, tk = .fulfilled x) ∧ (∃ x, sv = .fulfilled x)) := by
  refine ⟨rfl, rfl, rfl, rfl, rfl, rfl, rfl, rfl, rfl, rfl, rfl, rfl, rfl, ?_,
    rfl, rfl, rfl, rfl, rfl, rfl, rfl, rfl, rfl, ?_⟩ <;>
    cases cal <;> cases tk <;> cases sv <;> simp [getToday, getWeek]

end Lifestack
